import Mathlib

/-!
Shallow embedding of the Pong game simulation core
(src/game.ts, src/utils.ts, src/config.ts, src/input.ts).
JavaScript numbers are modelled as rationals; the stateful TypeScript
functions become pure state-passing functions, and the two
`Math.random()` draws used by a serve are injected as explicit
parameters.
-/

namespace Pong

/-- Static game configuration record, mirroring `GameConfig` in src/types.ts
(only the numeric fields the simulation core reads). -/
structure GameConfig where
  canvasWidth : ℚ
  canvasHeight : ℚ
  paddleWidth : ℚ
  paddleHeight : ℚ
  paddleSpeed : ℚ
  paddleMargin : ℚ
  ballRadius : ℚ
  ballInitialSpeed : ℚ
  ballSpeedIncreaseFactor : ℚ
  ballMaxSpeed : ℚ
  winningScore : Nat
  deriving DecidableEq

/-- The concrete configuration values of `CONFIG` in src/config.ts. -/
def CONFIG : GameConfig where
  canvasWidth := 800
  canvasHeight := 600
  paddleWidth := 15
  paddleHeight := 100
  paddleSpeed := 8
  paddleMargin := 20
  ballRadius := 8
  ballInitialSpeed := 5
  ballSpeedIncreaseFactor := 1.05
  ballMaxSpeed := 15
  winningScore := 5

/-- The ball, mirroring `Ball` in src/types.ts. -/
structure Ball where
  x : ℚ
  y : ℚ
  radius : ℚ
  speedX : ℚ
  speedY : ℚ
  initialSpeed : ℚ
  deriving DecidableEq

/-- Paddle identity, mirroring the `'left' | 'right'` union in src/types.ts. -/
inductive PaddleId where
  | left
  | right
  deriving DecidableEq

/-- A paddle, mirroring `Paddle` in src/types.ts. -/
structure Paddle where
  id : PaddleId
  x : ℚ
  y : ℚ
  width : ℚ
  height : ℚ
  speed : ℚ
  dy : ℚ
  score : Nat
  deriving DecidableEq

/-- The canvas dimensions stored inside the game state. -/
structure Canvas where
  width : ℚ
  height : ℚ
  deriving DecidableEq

/-- The key-press map restricted to the six configured control keys
(`keysPressed` in src/types.ts, pre-populated by `createInitialGameState`). -/
structure KeysPressed where
  player1Up : Bool
  player1Down : Bool
  player2Up : Bool
  player2Down : Bool
  pauseKey : Bool
  restartKey : Bool
  deriving DecidableEq

/-- The aggregate game state, mirroring `GameState` in src/types.ts. -/
structure GameState where
  ball : Ball
  paddleLeft : Paddle
  paddleRight : Paddle
  canvas : Canvas
  gamePaused : Bool
  gameOver : Bool
  winningScore : Nat
  winner : Option String
  keysPressed : KeysPressed
  deriving DecidableEq

/-- `clamp` from src/utils.ts: `Math.max(min, Math.min(value, max))`. -/
def clamp (value lo hi : ℚ) : ℚ :=
  max lo (min value hi)

/-- A rectangle given by top-left corner and extent (`GameEntity` in src/types.ts). -/
structure GameEntity where
  x : ℚ
  y : ℚ
  width : ℚ
  height : ℚ
  deriving DecidableEq

/-- `checkAABBCollision` from src/utils.ts: strict-inequality AABB overlap test. -/
def checkAABBCollision (rect1 rect2 : GameEntity) : Bool :=
  decide (rect1.x < rect2.x + rect2.width ∧
    rect1.x + rect1.width > rect2.x ∧
    rect1.y < rect2.y + rect2.height ∧
    rect1.y + rect1.height > rect2.y)

/-- `checkBallPaddleCollision` from src/utils.ts: the ball is boxed into a
square of side `2 * radius` and tested against the paddle's rectangle. -/
def checkBallPaddleCollision (ball : Ball) (paddle : Paddle) : Bool :=
  checkAABBCollision
    { x := ball.x - ball.radius, y := ball.y - ball.radius,
      width := ball.radius * 2, height := ball.radius * 2 }
    { x := paddle.x, y := paddle.y, width := paddle.width, height := paddle.height }

/-- `Math.sign` on rationals: -1 / 0 / 1 by the sign of the argument. -/
def mathSign (q : ℚ) : ℚ :=
  if q < 0 then -1 else if 0 < q then 1 else 0

/-- `resetBall` from src/game.ts. `rand1` is the `Math.random()` draw for the
serve angle and `rand2` the draw for the coin flip used when the angle draw
gives exactly zero vertical speed (the JavaScript `speedY || (...)`). -/
def resetBall (ball : Ball) (serveDirection : ℚ) (rand1 rand2 : ℚ) : Ball :=
  let speedY0 := ball.initialSpeed * (rand1 * 0.8 - 0.4)
  let speedY1 :=
    if |speedY0| < ball.initialSpeed * 0.1 then
      ball.initialSpeed * 0.1 *
        mathSign (if speedY0 = 0 then (if rand2 > 0.5 then 1 else -1) else speedY0)
    else speedY0
  { ball with
    x := CONFIG.canvasWidth / 2
    y := CONFIG.canvasHeight / 2
    speedX := ball.initialSpeed * serveDirection
    speedY := speedY1 }

/-- `updatePaddlePosition` from src/game.ts. -/
def updatePaddlePosition (paddle : Paddle) (canvasHeight : ℚ) : Paddle :=
  { paddle with y := clamp (paddle.y + paddle.dy * paddle.speed) 0 (canvasHeight - paddle.height) }

/-- `handleBallPaddleCollision` from src/game.ts. -/
def handleBallPaddleCollision (ball : Ball) (paddle : Paddle) : Ball :=
  let speedXr := ball.speedX * (-1)
  let newSpeedXAbs := |speedXr| * CONFIG.ballSpeedIncreaseFactor
  let speedX1 := min newSpeedXAbs CONFIG.ballMaxSpeed * mathSign speedXr
  let deltaY := ball.y - (paddle.y + paddle.height / 2)
  let newSpeedY := deltaY * 0.25
  let speedY1 := clamp newSpeedY (-CONFIG.ballMaxSpeed) CONFIG.ballMaxSpeed
  let x1 :=
    match paddle.id with
    | PaddleId.left => paddle.x + paddle.width + ball.radius + 0.1
    | PaddleId.right => paddle.x - ball.radius - 0.1
  { ball with speedX := speedX1, speedY := speedY1, x := x1 }

/-- The integration step at the top of `updateBall`:
`ball.x += ball.speedX; ball.y += ball.speedY`. -/
def integrateBall (ball : Ball) : Ball :=
  { ball with x := ball.x + ball.speedX, y := ball.y + ball.speedY }

/-- The top/bottom wall bounce step of `updateBall`. -/
def wallBounce (ball : Ball) (canvasHeight : ℚ) : Ball :=
  if ball.y - ball.radius < 0 then
    { ball with y := ball.radius, speedY := ball.speedY * (-1) }
  else if ball.y + ball.radius > canvasHeight then
    { ball with y := canvasHeight - ball.radius, speedY := ball.speedY * (-1) }
  else ball

/-- The direction-gated paddle-collision step of `updateBall`. -/
def paddleBounce (ball : Ball) (paddleLeft paddleRight : Paddle) : Ball :=
  if ball.speedX < 0 ∧ checkBallPaddleCollision ball paddleLeft = true then
    handleBallPaddleCollision ball paddleLeft
  else if ball.speedX > 0 ∧ checkBallPaddleCollision ball paddleRight = true then
    handleBallPaddleCollision ball paddleRight
  else ball

/-- The ball after the physics portion of `updateBall` (integration, wall
bounce, paddle bounce), i.e. the ball value the scoring checks then read. -/
def ballAfterPhysics (gameState : GameState) : Ball :=
  paddleBounce (wallBounce (integrateBall gameState.ball) gameState.canvas.height)
    gameState.paddleLeft gameState.paddleRight

/-- `checkWinCondition` from src/game.ts. -/
def checkWinCondition (gameState : GameState) : GameState :=
  let gs1 :=
    if gameState.paddleLeft.score ≥ gameState.winningScore then
      { gameState with gameOver := true, winner := some "Player 1" }
    else if gameState.paddleRight.score ≥ gameState.winningScore then
      { gameState with gameOver := true, winner := some "Player 2" }
    else gameState
  if gs1.gameOver then
    { gs1 with ball := { gs1.ball with speedX := 0, speedY := 0 } }
  else gs1

/-- `updateBall` from src/game.ts: physics followed by the scoring checks.
The random draws are forwarded to `resetBall` when a non-terminal score
triggers a re-serve. -/
def updateBall (gameState : GameState) (rand1 rand2 : ℚ) : GameState :=
  let ball := ballAfterPhysics gameState
  if ball.x + ball.radius < 0 then
    let gs1 := { gameState with
      ball := ball
      paddleRight := { gameState.paddleRight with score := gameState.paddleRight.score + 1 } }
    let gs2 := checkWinCondition gs1
    if gs2.gameOver then gs2
    else { gs2 with ball := resetBall gs2.ball 1 rand1 rand2 }
  else if ball.x - ball.radius > gameState.canvas.width then
    let gs1 := { gameState with
      ball := ball
      paddleLeft := { gameState.paddleLeft with score := gameState.paddleLeft.score + 1 } }
    let gs2 := checkWinCondition gs1
    if gs2.gameOver then gs2
    else { gs2 with ball := resetBall gs2.ball (-1) rand1 rand2 }
  else { gameState with ball := ball }

/-- `updateGameState` from src/game.ts. -/
def updateGameState (gameState : GameState) (rand1 rand2 : ℚ) : GameState :=
  if gameState.gamePaused || gameState.gameOver then gameState
  else
    let gs1 := { gameState with
      paddleLeft := updatePaddlePosition gameState.paddleLeft gameState.canvas.height
      paddleRight := updatePaddlePosition gameState.paddleRight gameState.canvas.height }
    updateBall gs1 rand1 rand2

/-- `processPaddleInputs` from src/input.ts. -/
def processPaddleInputs (gameState : GameState) : GameState :=
  if gameState.gamePaused || gameState.gameOver then
    { gameState with
      paddleLeft := { gameState.paddleLeft with dy := 0 }
      paddleRight := { gameState.paddleRight with dy := 0 } }
  else
    let leftDy : ℚ :=
      if gameState.keysPressed.player1Up then -1
      else if gameState.keysPressed.player1Down then 1
      else 0
    let rightDy : ℚ :=
      if gameState.keysPressed.player2Up then -1
      else if gameState.keysPressed.player2Down then 1
      else 0
    { gameState with
      paddleLeft := { gameState.paddleLeft with dy := leftDy }
      paddleRight := { gameState.paddleRight with dy := rightDy } }

/-- One logical frame of the game loop in src/main.ts: input resolution
followed by the simulation step (`processPaddleInputs` then `updateGameState`). -/
def tick (gameState : GameState) (rand1 rand2 : ℚ) : GameState :=
  updateGameState (processPaddleInputs gameState) rand1 rand2

/-- A key map with no key held. -/
def noKeys : KeysPressed where
  player1Up := false
  player1Down := false
  player2Up := false
  player2Down := false
  pauseKey := false
  restartKey := false

/-- A concrete mid-rally ball used by witnesses. -/
def sampleBall : Ball where
  x := 400
  y := 300
  radius := 8
  speedX := 5
  speedY := 3
  initialSpeed := 5

/-- The left paddle at its initial position. -/
def samplePaddleLeft : Paddle where
  id := PaddleId.left
  x := 20
  y := 250
  width := 15
  height := 100
  speed := 8
  dy := 0
  score := 0

/-- The right paddle at its initial position. -/
def samplePaddleRight : Paddle where
  id := PaddleId.right
  x := 765
  y := 250
  width := 15
  height := 100
  speed := 8
  dy := 0
  score := 0

/-- A concrete mid-rally game state used by witnesses. -/
def sampleState : GameState where
  ball := sampleBall
  paddleLeft := samplePaddleLeft
  paddleRight := samplePaddleRight
  canvas := { width := 800, height := 600 }
  gamePaused := false
  gameOver := false
  winningScore := 5
  winner := none
  keysPressed := noKeys

/-- A state whose ball's leading edge (`x - radius` while moving left) crosses
the left boundary during the frame, while the trailing edge does not. -/
def cxLeadingEdge : GameState :=
  { sampleState with ball := { sampleBall with x := 12, speedX := -5, speedY := 0 } }

/-- A state whose ball ends the frame entirely beyond the left boundary. -/
def cxLeftCross : GameState :=
  { sampleState with ball := { sampleBall with x := -10, speedX := -5, speedY := 0 } }

/-- A state one point away from a left-player win, with the ball about to leave
past the right boundary (the right paddle out of its path) and the player-1 up
key held. -/
def cxWinTick : GameState :=
  { sampleState with
    ball := { sampleBall with x := 805, speedX := 5, speedY := 0 }
    paddleLeft := { samplePaddleLeft with score := 4 }
    paddleRight := { samplePaddleRight with y := 450 }
    keysPressed := { noKeys with player1Up := true } }

/-- A state in which the left paddle has just reached the winning score. -/
def cxLeftAtWinningScore : GameState :=
  { sampleState with paddleLeft := { samplePaddleLeft with score := 5 } }

/-- A finished, frozen state: game over with a stationary ball. -/
def cxFrozen : GameState :=
  { sampleState with
    gameOver := true
    winner := some "Player 1"
    ball := { sampleBall with speedX := 0, speedY := 0 } }

/-! ## Helper lemmas -/

lemma clamp_mem (v lo hi : ℚ) (h : lo ≤ hi) :
    lo ≤ clamp v lo hi ∧ clamp v lo hi ≤ hi := by
  unfold clamp
  exact ⟨le_max_left _ _, max_le h (min_le_right _ _)⟩

lemma mathSign_mem (q : ℚ) : mathSign q = -1 ∨ mathSign q = 0 ∨ mathSign q = 1 := by
  unfold mathSign
  split
  · exact Or.inl rfl
  · split
    · exact Or.inr (Or.inr rfl)
    · exact Or.inr (Or.inl rfl)

lemma abs_mathSign_le_one (q : ℚ) : |mathSign q| ≤ 1 := by
  rcases mathSign_mem q with h | h | h <;> rw [h] <;> norm_num

lemma abs_mathSign_of_ne_zero (q : ℚ) (h : q ≠ 0) : |mathSign q| = 1 := by
  unfold mathSign
  rcases h.lt_or_lt with hq | hq
  · rw [if_pos hq]
    norm_num
  · rw [if_neg (not_lt.mpr hq.le), if_pos hq]
    norm_num

lemma min_mul_mathSign_abs_le (c m q : ℚ) (hc : 0 ≤ c) (hm : 0 ≤ m) :
    |min c m * mathSign q| ≤ m := by
  have h0 : 0 ≤ min c m := le_min hc hm
  calc |min c m * mathSign q| = |min c m| * |mathSign q| := abs_mul _ _
    _ ≤ m * 1 := by
        apply mul_le_mul
        · rw [abs_of_nonneg h0]
          exact min_le_right _ _
        · exact abs_mathSign_le_one q
        · exact abs_nonneg _
        · exact hm
    _ = m := mul_one m

lemma abs_clamp_le (v m : ℚ) (hm : 0 ≤ m) : |clamp v (-m) m| ≤ m := by
  have h := clamp_mem v (-m) m (by linarith)
  exact abs_le.mpr h

lemma updateGameState_noop (gs : GameState) (rand1 rand2 : ℚ)
    (h : gs.gameOver = true ∨ gs.gamePaused = true) :
    updateGameState gs rand1 rand2 = gs := by
  unfold updateGameState
  rcases h with h | h <;> simp [h]

lemma checkWinCondition_cases (gs : GameState) :
    checkWinCondition gs =
      (if gs.paddleLeft.score ≥ gs.winningScore then
        { gs with
          gameOver := true
          winner := some "Player 1"
          ball := { gs.ball with speedX := 0, speedY := 0 } }
      else if gs.paddleRight.score ≥ gs.winningScore then
        { gs with
          gameOver := true
          winner := some "Player 2"
          ball := { gs.ball with speedX := 0, speedY := 0 } }
      else if gs.gameOver = true then
        { gs with ball := { gs.ball with speedX := 0, speedY := 0 } }
      else gs) := by
  unfold checkWinCondition
  by_cases hl : gs.paddleLeft.score ≥ gs.winningScore
  · simp [hl]
  · by_cases hr : gs.paddleRight.score ≥ gs.winningScore
    · simp [hl, hr]
    · by_cases hgo : gs.gameOver = true
      · simp [hl, hr, hgo]
      · simp [hl, hr, hgo]

lemma checkWinCondition_paddleLeft (gs : GameState) :
    (checkWinCondition gs).paddleLeft = gs.paddleLeft := by
  rw [checkWinCondition_cases]
  repeat first | rfl | split

lemma checkWinCondition_paddleRight (gs : GameState) :
    (checkWinCondition gs).paddleRight = gs.paddleRight := by
  rw [checkWinCondition_cases]
  repeat first | rfl | split

lemma checkWinCondition_gameOver_ball (gs : GameState)
    (h : (checkWinCondition gs).gameOver = true) :
    (checkWinCondition gs).ball.speedX = 0 ∧ (checkWinCondition gs).ball.speedY = 0 := by
  rw [checkWinCondition_cases] at h ⊢
  by_cases hl : gs.paddleLeft.score ≥ gs.winningScore
  · simp [hl]
  · by_cases hr : gs.paddleRight.score ≥ gs.winningScore
    · simp [hl, hr]
    · by_cases hgo : gs.gameOver = true
      · simp [hl, hr, hgo]
      · simp [hl, hr, hgo] at h

lemma updateBall_gameOver_to_speeds (gs : GameState) (rand1 rand2 : ℚ)
    (h0 : gs.gameOver = false) :
    (updateBall gs rand1 rand2).gameOver = true →
    (updateBall gs rand1 rand2).ball.speedX = 0 ∧
      (updateBall gs rand1 rand2).ball.speedY = 0 := by
  simp only [updateBall]
  by_cases h1 : (ballAfterPhysics gs).x + (ballAfterPhysics gs).radius < 0
  · rw [if_pos h1]
    split
    next hg => exact fun _ => checkWinCondition_gameOver_ball _ hg
    next hg => exact fun hc => absurd hc hg
  · rw [if_neg h1]
    by_cases h2 : (ballAfterPhysics gs).x - (ballAfterPhysics gs).radius > gs.canvas.width
    · rw [if_pos h2]
      split
      next hg => exact fun _ => checkWinCondition_gameOver_ball _ hg
      next hg => exact fun hc => absurd hc hg
    · rw [if_neg h2]
      intro hc
      have hc2 : gs.gameOver = true := hc
      rw [h0] at hc2
      cases hc2

lemma processPaddleInputs_frozen (gs : GameState)
    (h : gs.gamePaused = true ∨ gs.gameOver = true) :
    processPaddleInputs gs =
      { gs with
        paddleLeft := { gs.paddleLeft with dy := 0 }
        paddleRight := { gs.paddleRight with dy := 0 } } := by
  unfold processPaddleInputs
  rcases h with h | h <;> simp [h]

lemma processPaddleInputs_flags (gs : GameState) :
    (processPaddleInputs gs).gamePaused = gs.gamePaused ∧
    (processPaddleInputs gs).gameOver = gs.gameOver ∧
    (processPaddleInputs gs).ball = gs.ball := by
  unfold processPaddleInputs
  split <;> simp

lemma updateGameState_active (gs : GameState) (rand1 rand2 : ℚ)
    (hp : gs.gamePaused = false) (ho : gs.gameOver = false) :
    updateGameState gs rand1 rand2 =
      updateBall { gs with
        paddleLeft := updatePaddlePosition gs.paddleLeft gs.canvas.height
        paddleRight := updatePaddlePosition gs.paddleRight gs.canvas.height } rand1 rand2 := by
  unfold updateGameState
  simp [hp, ho]

/-! ## Claim theorems -/

/-- Claim C1: for every game state whose `gameOver` flag is true (or whose
`gamePaused` flag is true), any number of repeated calls to `updateGameState`
leaves the entire state unchanged. -/
theorem updateGameState_frozen (gs : GameState)
    (h : gs.gameOver = true ∨ gs.gamePaused = true) (rands : List (ℚ × ℚ)) :
    List.foldl (fun s r => updateGameState s r.1 r.2) gs rands = gs := by
  induction rands with
  | nil => rfl
  | cons r rest ih =>
      rw [List.foldl_cons, updateGameState_noop gs r.1 r.2 h]
      exact ih

/-- Witness for C1: two repeated calls on a concrete game-over state return it
unchanged. -/
theorem updateGameState_frozen_witness :
    List.foldl (fun s r => updateGameState s r.1 r.2)
      { sampleState with gameOver := true } [((0 : ℚ), (0 : ℚ)), ((1 : ℚ)/2, (1 : ℚ)/3)] =
      { sampleState with gameOver := true } :=
  updateGameState_frozen { sampleState with gameOver := true } (Or.inl rfl) _

/-- Claim C8: for every paddle fitting in the canvas, every movement intent in
{-1, 0, 1} and every starting y (including out-of-range seeds), the updated
paddle's y lies in [0, canvasHeight - height]. -/
theorem updatePaddlePosition_in_range (paddle : Paddle) (canvasHeight : ℚ)
    (hh : paddle.height ≤ canvasHeight)
    (hdy : paddle.dy = -1 ∨ paddle.dy = 0 ∨ paddle.dy = 1) :
    0 ≤ (updatePaddlePosition paddle canvasHeight).y ∧
      (updatePaddlePosition paddle canvasHeight).y ≤ canvasHeight - paddle.height := by
  exact clamp_mem (paddle.y + paddle.dy * paddle.speed) 0 (canvasHeight - paddle.height)
    (by linarith)

/-- Witness for C8: a paddle seeded far above the field with upward intent is
clamped back into range. -/
theorem updatePaddlePosition_in_range_witness :
    0 ≤ (updatePaddlePosition { samplePaddleLeft with y := -50, dy := -1 } 600).y ∧
      (updatePaddlePosition { samplePaddleLeft with y := -50, dy := -1 } 600).y ≤
        600 - ({ samplePaddleLeft with y := -50, dy := -1 } : Paddle).height :=
  updatePaddlePosition_in_range { samplePaddleLeft with y := -50, dy := -1 } 600
    (by decide) (Or.inl rfl)

/-- Claim C9: the AABB overlap test is symmetric, and rectangle pairs that
merely touch along an edge report no collision. -/
theorem checkAABBCollision_symm_touch (a b : GameEntity) :
    checkAABBCollision a b = checkAABBCollision b a ∧
    ((a.x + a.width = b.x ∨ b.x + b.width = a.x ∨
      a.y + a.height = b.y ∨ b.y + b.height = a.y) →
      checkAABBCollision a b = false) := by
  constructor
  · unfold checkAABBCollision
    rw [decide_eq_decide]
    constructor
    · rintro ⟨h1, h2, h3, h4⟩
      exact ⟨h2, h1, h4, h3⟩
    · rintro ⟨h1, h2, h3, h4⟩
      exact ⟨h2, h1, h4, h3⟩
  · intro h
    unfold checkAABBCollision
    rw [decide_eq_false_iff_not]
    rintro ⟨h1, h2, h3, h4⟩
    rcases h with h | h | h | h
    · rw [h] at h2
      exact lt_irrefl _ h2
    · rw [h] at h1
      exact lt_irrefl _ h1
    · rw [h] at h4
      exact lt_irrefl _ h4
    · rw [h] at h3
      exact lt_irrefl _ h3

/-- Witness for C9: two squares sharing a vertical edge do not collide. -/
theorem checkAABBCollision_symm_touch_witness :
    checkAABBCollision { x := 0, y := 0, width := 10, height := 10 }
      { x := 10, y := 0, width := 10, height := 10 } = false :=
  (checkAABBCollision_symm_touch
    { x := 0, y := 0, width := 10, height := 10 }
    { x := 10, y := 0, width := 10, height := 10 }).2 (Or.inl (by norm_num))

/-- Claim C10: the post-bounce vertical speed ignores the incoming vertical
speed: two collisions differing only in the incoming `speedY` yield the same
outgoing `speedY`. -/
theorem handleBallPaddleCollision_speedY_independent (ball : Ball) (paddle : Paddle)
    (v1 v2 : ℚ) :
    (handleBallPaddleCollision { ball with speedY := v1 } paddle).speedY =
      (handleBallPaddleCollision { ball with speedY := v2 } paddle).speedY := rfl

/-- Claim C3: for every ball and paddle and any pre-collision speeds, the
bounce keeps both speed components within the configured maximum; the new
`speedX` is the sign-inverted incoming `speedX` with magnitude scaled by the
increase factor then clamped to the maximum, and the new `speedY` is a quarter
of the vertical offset from the paddle center, clamped to the maximum. -/
theorem handleBallPaddleCollision_bounds (ball : Ball) (paddle : Paddle) :
    |(handleBallPaddleCollision ball paddle).speedX| ≤ CONFIG.ballMaxSpeed ∧
    |(handleBallPaddleCollision ball paddle).speedY| ≤ CONFIG.ballMaxSpeed ∧
    (handleBallPaddleCollision ball paddle).speedX =
      min (|ball.speedX| * CONFIG.ballSpeedIncreaseFactor) CONFIG.ballMaxSpeed *
        mathSign (-ball.speedX) ∧
    (handleBallPaddleCollision ball paddle).speedY =
      clamp ((ball.y - (paddle.y + paddle.height / 2)) * 0.25)
        (-CONFIG.ballMaxSpeed) CONFIG.ballMaxSpeed := by
  have ex0 : (handleBallPaddleCollision ball paddle).speedX =
      min (|ball.speedX * (-1)| * CONFIG.ballSpeedIncreaseFactor) CONFIG.ballMaxSpeed *
        mathSign (ball.speedX * (-1)) := rfl
  have ey0 : (handleBallPaddleCollision ball paddle).speedY =
      clamp ((ball.y - (paddle.y + paddle.height / 2)) * 0.25)
        (-CONFIG.ballMaxSpeed) CONFIG.ballMaxSpeed := rfl
  rw [ex0, ey0]
  refine ⟨min_mul_mathSign_abs_le _ _ _ ?_ ?_, abs_clamp_le _ _ ?_, ?_, rfl⟩
  · exact mul_nonneg (abs_nonneg _) (by norm_num [CONFIG])
  · norm_num [CONFIG]
  · norm_num [CONFIG]
  · rw [mul_neg_one, abs_neg]

/-- Claim C5: after a serve with any injected random draws in [0,1), the ball
is at the field center, `speedX` is the initial speed times the serve
direction, and the vertical speed magnitude is at least a tenth of the initial
speed. -/
theorem resetBall_centered_serve (ball : Ball) (serveDirection rand1 rand2 : ℚ)
    (hsd : serveDirection = 1 ∨ serveDirection = -1)
    (h1 : 0 ≤ rand1) (h2 : rand1 < 1) (h3 : 0 ≤ rand2) (h4 : rand2 < 1) :
    (resetBall ball serveDirection rand1 rand2).x = CONFIG.canvasWidth / 2 ∧
    (resetBall ball serveDirection rand1 rand2).y = CONFIG.canvasHeight / 2 ∧
    (resetBall ball serveDirection rand1 rand2).speedX = ball.initialSpeed * serveDirection ∧
    0.1 * ball.initialSpeed ≤ |(resetBall ball serveDirection rand1 rand2).speedY| := by
  refine ⟨rfl, rfl, rfl, ?_⟩
  have ey : (resetBall ball serveDirection rand1 rand2).speedY =
      (if |ball.initialSpeed * (rand1 * 0.8 - 0.4)| < ball.initialSpeed * 0.1 then
        ball.initialSpeed * 0.1 *
          mathSign (if ball.initialSpeed * (rand1 * 0.8 - 0.4) = 0 then
            (if rand2 > 0.5 then 1 else -1)
          else ball.initialSpeed * (rand1 * 0.8 - 0.4))
      else ball.initialSpeed * (rand1 * 0.8 - 0.4)) := rfl
  rw [ey]
  split
  case isTrue h =>
    have hpos : 0 < ball.initialSpeed * 0.1 := lt_of_le_of_lt (abs_nonneg _) h
    have ht : (if ball.initialSpeed * (rand1 * 0.8 - 0.4) = 0 then
        (if rand2 > 0.5 then (1 : ℚ) else -1)
      else ball.initialSpeed * (rand1 * 0.8 - 0.4)) ≠ 0 := by
      split
      case isTrue h0 => split <;> norm_num
      case isFalse h0 => exact h0
    rw [abs_mul, abs_mathSign_of_ne_zero _ ht, mul_one, abs_of_pos hpos]
    linarith
  case isFalse h =>
    push_neg at h
    linarith [h]

/-- Witness for C5: serving right with both draws at one half centers the ball
and yields a vertical speed of half a unit, a tenth of the initial speed 5. -/
theorem resetBall_centered_serve_witness :
    (resetBall sampleBall 1 (1/2) (1/2)).x = CONFIG.canvasWidth / 2 ∧
    (resetBall sampleBall 1 (1/2) (1/2)).y = CONFIG.canvasHeight / 2 ∧
    (resetBall sampleBall 1 (1/2) (1/2)).speedX = sampleBall.initialSpeed * 1 ∧
    0.1 * sampleBall.initialSpeed ≤ |(resetBall sampleBall 1 (1/2) (1/2)).speedY| :=
  resetBall_centered_serve sampleBall 1 (1/2) (1/2) (Or.inl rfl)
    (by norm_num) (by norm_num) (by norm_num) (by norm_num)

/-- Claim C7: whenever either paddle's score has reached the winning score,
`checkWinCondition` ends the game, zeroes the ball velocity, and names as
winner a paddle whose score reached the winning score, the left paddle taking
priority so only one branch fires. -/
theorem checkWinCondition_declares_winner (gs : GameState)
    (h : gs.paddleLeft.score ≥ gs.winningScore ∨ gs.paddleRight.score ≥ gs.winningScore) :
    (checkWinCondition gs).gameOver = true ∧
    (checkWinCondition gs).ball.speedX = 0 ∧
    (checkWinCondition gs).ball.speedY = 0 ∧
    ((gs.paddleLeft.score ≥ gs.winningScore ∧
        (checkWinCondition gs).winner = some "Player 1") ∨
      (¬ gs.paddleLeft.score ≥ gs.winningScore ∧ gs.paddleRight.score ≥ gs.winningScore ∧
        (checkWinCondition gs).winner = some "Player 2")) := by
  unfold checkWinCondition
  by_cases hl : gs.paddleLeft.score ≥ gs.winningScore
  · simp [hl]
  · have hr : gs.paddleRight.score ≥ gs.winningScore := h.resolve_left hl
    simp [hl, hr]

/-- Witness for C7: with the left paddle at the winning score, the game ends
with Player 1 declared winner and the ball stopped. -/
theorem checkWinCondition_declares_winner_witness :
    (checkWinCondition cxLeftAtWinningScore).gameOver = true ∧
    (checkWinCondition cxLeftAtWinningScore).ball.speedX = 0 ∧
    (checkWinCondition cxLeftAtWinningScore).ball.speedY = 0 ∧
    ((cxLeftAtWinningScore.paddleLeft.score ≥ cxLeftAtWinningScore.winningScore ∧
        (checkWinCondition cxLeftAtWinningScore).winner = some "Player 1") ∨
      (¬ cxLeftAtWinningScore.paddleLeft.score ≥ cxLeftAtWinningScore.winningScore ∧
        cxLeftAtWinningScore.paddleRight.score ≥ cxLeftAtWinningScore.winningScore ∧
        (checkWinCondition cxLeftAtWinningScore).winner = some "Player 2")) :=
  checkWinCondition_declares_winner cxLeftAtWinningScore (Or.inl (by decide))

/-- Claim C2 counterexample: a left-moving ball whose leading edge
(`x - radius`) starts inside the field and crosses the left boundary during
the frame does not make the right paddle's score increment, because the code
scores only once the trailing edge (`x + radius`) is past the boundary. -/
theorem updateBall_leading_edge_no_score :
    cxLeadingEdge.ball.speedX < 0 ∧
    0 ≤ cxLeadingEdge.ball.x - cxLeadingEdge.ball.radius ∧
    (ballAfterPhysics cxLeadingEdge).x - (ballAfterPhysics cxLeadingEdge).radius < 0 ∧
    (updateBall cxLeadingEdge 0 0).paddleRight.score = cxLeadingEdge.paddleRight.score := by
  norm_num [updateBall, ballAfterPhysics, integrateBall, wallBounce, paddleBounce,
    checkBallPaddleCollision, checkAABBCollision, handleBallPaddleCollision,
    checkWinCondition, resetBall, clamp, mathSign, CONFIG, cxLeadingEdge, sampleState,
    sampleBall, samplePaddleLeft, samplePaddleRight, noKeys]

/-- Claim C2 (amended): the scores change exactly when the ball has fully
crossed a boundary after the frame's physics: if the post-physics ball
satisfies `x + radius < 0` the right paddle's score increments by one and the
left paddle's is unchanged; otherwise, if it satisfies
`x - radius > canvas.width`, the left paddle's score increments by one and the
right paddle's is unchanged. -/
theorem updateBall_score_on_crossing (gs : GameState) (rand1 rand2 : ℚ) :
    ((ballAfterPhysics gs).x + (ballAfterPhysics gs).radius < 0 →
      (updateBall gs rand1 rand2).paddleRight.score = gs.paddleRight.score + 1 ∧
      (updateBall gs rand1 rand2).paddleLeft.score = gs.paddleLeft.score) ∧
    (¬ ((ballAfterPhysics gs).x + (ballAfterPhysics gs).radius < 0) →
      (ballAfterPhysics gs).x - (ballAfterPhysics gs).radius > gs.canvas.width →
      (updateBall gs rand1 rand2).paddleLeft.score = gs.paddleLeft.score + 1 ∧
      (updateBall gs rand1 rand2).paddleRight.score = gs.paddleRight.score) := by
  constructor
  · intro h1
    constructor <;>
      · simp only [updateBall]
        rw [if_pos h1]
        split <;> simp [checkWinCondition_paddleRight, checkWinCondition_paddleLeft]
  · intro h1 h2
    constructor <;>
      · simp only [updateBall]
        rw [if_neg h1, if_pos h2]
        split <;> simp [checkWinCondition_paddleRight, checkWinCondition_paddleLeft]

/-- Witness for C2 (amended): a ball fully past the left boundary gives the
right paddle one point and leaves the left paddle's score alone. -/
theorem updateBall_score_on_crossing_witness :
    (updateBall cxLeftCross 0 0).paddleRight.score = cxLeftCross.paddleRight.score + 1 ∧
    (updateBall cxLeftCross 0 0).paddleLeft.score = cxLeftCross.paddleLeft.score :=
  (updateBall_score_on_crossing cxLeftCross 0 0).1
    (by norm_num [ballAfterPhysics, integrateBall, wallBounce, paddleBounce,
      checkBallPaddleCollision, checkAABBCollision, handleBallPaddleCollision, clamp,
      mathSign, CONFIG, cxLeftCross, sampleState, sampleBall, samplePaddleLeft,
      samplePaddleRight, noKeys])

/-- Claim C4 counterexample: on the tick in which the winning point is scored
while the player-1 up key is held, `gameOver` becomes true and the ball stops,
but the left paddle's movement intent `dy` is not zero. -/
theorem tick_winning_frame_keeps_intent :
    (tick cxWinTick 0 0).gameOver = true ∧
    ¬ (tick cxWinTick 0 0).paddleLeft.dy = 0 := by
  norm_num [tick, processPaddleInputs, updateGameState, updateBall, ballAfterPhysics,
    integrateBall, wallBounce, paddleBounce, checkBallPaddleCollision, checkAABBCollision,
    handleBallPaddleCollision, checkWinCondition, resetBall, updatePaddlePosition, clamp,
    mathSign, CONFIG, cxWinTick, sampleState, sampleBall, samplePaddleLeft,
    samplePaddleRight, noKeys]

/-- Claim C4 (amended): the freeze property `gameOver → ball velocity is zero`
is an inductive invariant of a tick (`processPaddleInputs` then
`updateGameState`), including the tick in which the winning point is scored;
paddle intents are forced to zero by any tick that starts with `gameOver`
already true, but may be nonzero on the winning tick itself. -/
theorem tick_preserves_frozen_ball (gs : GameState) (rand1 rand2 : ℚ)
    (h : gs.gameOver = true → gs.ball.speedX = 0 ∧ gs.ball.speedY = 0) :
    ((tick gs rand1 rand2).gameOver = true →
      (tick gs rand1 rand2).ball.speedX = 0 ∧ (tick gs rand1 rand2).ball.speedY = 0) ∧
    (gs.gameOver = true →
      (tick gs rand1 rand2).paddleLeft.dy = 0 ∧ (tick gs rand1 rand2).paddleRight.dy = 0) := by
  unfold tick
  have hflags := processPaddleInputs_flags gs
  by_cases hgo : gs.gameOver = true
  · rw [updateGameState_noop (processPaddleInputs gs) rand1 rand2
      (Or.inl (hflags.2.1.trans hgo))]
    constructor
    · intro _
      rw [hflags.2.2]
      exact h hgo
    · intro _
      rw [processPaddleInputs_frozen gs (Or.inr hgo)]
      exact ⟨rfl, rfl⟩
  · have hgo2 : gs.gameOver = false := Bool.eq_false_iff.mpr hgo
    refine ⟨?_, fun hc => absurd hc hgo⟩
    by_cases hgp : gs.gamePaused = true
    · rw [updateGameState_noop (processPaddleInputs gs) rand1 rand2
        (Or.inr (hflags.1.trans hgp))]
      intro hc
      exact absurd (hflags.2.1.symm.trans hc) hgo
    · have hgp2 : gs.gamePaused = false := Bool.eq_false_iff.mpr hgp
      rw [updateGameState_active (processPaddleInputs gs) rand1 rand2
        (hflags.1.trans hgp2) (hflags.2.1.trans hgo2)]
      exact updateBall_gameOver_to_speeds _ rand1 rand2 (hflags.2.1.trans hgo2)

/-- Witness for C4 (amended): a finished, frozen state keeps a stationary ball
and zero intents across a further tick. -/
theorem tick_preserves_frozen_ball_witness :
    ((tick cxFrozen 0 0).gameOver = true →
      (tick cxFrozen 0 0).ball.speedX = 0 ∧ (tick cxFrozen 0 0).ball.speedY = 0) ∧
    (cxFrozen.gameOver = true →
      (tick cxFrozen 0 0).paddleLeft.dy = 0 ∧ (tick cxFrozen 0 0).paddleRight.dy = 0) :=
  tick_preserves_frozen_ball cxFrozen 0 0 (fun _ => ⟨rfl, rfl⟩)

/-- Claim C6: a single `updateBall` call changes at most one paddle's score,
and by exactly one: either the post-physics ball is fully past the left
boundary and only the right paddle's score increments, or it is fully past the
right boundary and only the left paddle's score increments, or no boundary is
fully crossed and both scores, the gameOver flag and the winner are unchanged
(so at most one win check fires). -/
theorem updateBall_exclusive_scoring (gs : GameState) (rand1 rand2 : ℚ) :
    ((ballAfterPhysics gs).x + (ballAfterPhysics gs).radius < 0 ∧
      (updateBall gs rand1 rand2).paddleRight.score = gs.paddleRight.score + 1 ∧
      (updateBall gs rand1 rand2).paddleLeft.score = gs.paddleLeft.score) ∨
    (¬ ((ballAfterPhysics gs).x + (ballAfterPhysics gs).radius < 0) ∧
      (ballAfterPhysics gs).x - (ballAfterPhysics gs).radius > gs.canvas.width ∧
      (updateBall gs rand1 rand2).paddleLeft.score = gs.paddleLeft.score + 1 ∧
      (updateBall gs rand1 rand2).paddleRight.score = gs.paddleRight.score) ∨
    (¬ ((ballAfterPhysics gs).x + (ballAfterPhysics gs).radius < 0) ∧
      ¬ ((ballAfterPhysics gs).x - (ballAfterPhysics gs).radius > gs.canvas.width) ∧
      (updateBall gs rand1 rand2).paddleLeft.score = gs.paddleLeft.score ∧
      (updateBall gs rand1 rand2).paddleRight.score = gs.paddleRight.score ∧
      (updateBall gs rand1 rand2).gameOver = gs.gameOver ∧
      (updateBall gs rand1 rand2).winner = gs.winner) := by
  by_cases h1 : (ballAfterPhysics gs).x + (ballAfterPhysics gs).radius < 0
  · left
    refine ⟨h1, ?_, ?_⟩ <;>
      · simp only [updateBall]
        rw [if_pos h1]
        split <;> simp [checkWinCondition_paddleRight, checkWinCondition_paddleLeft]
  · by_cases h2 : (ballAfterPhysics gs).x - (ballAfterPhysics gs).radius > gs.canvas.width
    · right
      left
      refine ⟨h1, h2, ?_, ?_⟩ <;>
        · simp only [updateBall]
          rw [if_neg h1, if_pos h2]
          split <;> simp [checkWinCondition_paddleRight, checkWinCondition_paddleLeft]
    · right
      right
      refine ⟨h1, h2, ?_, ?_, ?_, ?_⟩ <;>
        · simp only [updateBall]
          rw [if_neg h1, if_neg h2]

end Pong
